import Mathlib

/-!
Shallow embedding of the HGSMI guest-driver core in `HGSMIBase.c` (VirtualBox
guest video driver, common code), together with theorems checking the
natural-language specification against it.

The file models the observable behaviour of each C function as a pure Lean
function.  Hardware and host interactions (doorbell port reads/writes, the
dispatch result of `HGSMIBufferProcess`, the values a host writes back into a
shared buffer, heap allocation success, and the offset the heap resolves for a
buffer pointer) are inputs supplied by an explicit environment, and the port
writes the code performs are returned as an explicit event trace.  IPRT status
codes are `Int`s with their actual numeric values; `RT_SUCCESS rc` is `0 ≤ rc`
and `RT_FAILURE rc` is `rc < 0`.
-/

namespace HGSMI

/-! ## Status codes (iprt/err.h) and protocol constants -/

def VINF_SUCCESS : Int := 0

def VERR_INVALID_PARAMETER : Int := -2

def VERR_NO_MEMORY : Int := -8

def VERR_NOT_IMPLEMENTED : Int := -12

def VERR_INTERNAL_ERROR : Int := -225

/-- The reserved doorbell sentinel `HGSMIOFFSET_VOID = (HGSMIOFFSET)~0`. -/
def HGSMIOFFSET_VOID : Nat := 4294967295

def UINT32_MAX : Nat := 4294967295

/-- 2^32, the modulus of `uint32_t` arithmetic. -/
def U32 : Nat := 4294967296

def HGSMI_CH_HGSMI : Nat := 1

def HGSMI_CH_VBVA : Nat := 2

def HGSMI_CC_HOST_FLAGS_LOCATION : Nat := 0

def VBVA_QUERY_CONF32 : Nat := 1

def VBVA_INFO_HEAP : Nat := 4

def VBVA_MOUSE_POINTER_SHAPE : Nat := 8

def VBVA_INFO_CAPS : Nat := 12

def VBOX_MOUSE_POINTER_VISIBLE : Nat := 1

def VBOX_MOUSE_POINTER_SHAPE : Nat := 4

/-! ## Host-to-guest side: events and the drain loop

Events observable on the host-command path.  `flagsCheck` is a read of the
shared pending-flags word, `casAttempt` an `ASMAtomicCmpXchgBool` on the
reentrancy guard (`ok` = the swap from false to true succeeded), `doorbellRead`
a read of the receive doorbell port, `dispatch` a call to `HGSMIBufferProcess`
with its returned status, `completeWrite` a write of an offset to the
completion-notification port, and `guardClear` the `ASMAtomicWriteBool` that
puts the guard back to false. -/

inductive HostEv where
  | flagsCheck (pending : Bool)
  | casAttempt (ok : Bool)
  | doorbellRead (off : Nat)
  | dispatch (off : Nat) (rc : Int)
  | completeWrite (off : Nat)
  | guardClear
  deriving DecidableEq, Repr

def isDoorbellRead : HostEv → Bool
  | HostEv.doorbellRead _ => true
  | _ => false

def isDispatch : HostEv → Bool
  | HostEv.dispatch _ _ => true
  | _ => false

def isFlagsCheck : HostEv → Bool
  | HostEv.flagsCheck _ => true
  | _ => false

/-- `HGSMINotifyHostCmdComplete` (HGSMIBase.c line 37): write the offset of a
completed host command to the completion-notification port. -/
def HGSMINotifyHostCmdComplete (offt : Nat) : List HostEv :=
  [HostEv.completeWrite offt]

/-- `hgsmiHostCmdProcess` (HGSMIBase.c line 64): dispatch the buffer at
`offBuffer` via `HGSMIBufferProcess` (whose result `rcProcess` is supplied by
the environment); on failure, notify completion ourselves; on success the
handler owns completion. -/
def hgsmiHostCmdProcess (rcProcess : Int) (offBuffer : Nat) : List HostEv :=
  HostEv.dispatch offBuffer rcProcess ::
    (if rcProcess < 0 then HGSMINotifyHostCmdComplete offBuffer else [])

/-- `hgsmiHostCommandQueryProcess` (HGSMIBase.c line 86): read the next offset
from the receive doorbell; if it is `HGSMIOFFSET_VOID` return without
dispatching (`AssertReturnVoid`), otherwise dispatch it. -/
def hgsmiHostCommandQueryProcess (offset : Nat) (rcProcess : Int) : List HostEv :=
  HostEv.doorbellRead offset ::
    (if offset = HGSMIOFFSET_VOID then [] else hgsmiHostCmdProcess rcProcess offset)

/-- One iteration's worth of environment for the drain loop: the value of the
pending bit of the shared flags word at this check, the value the doorbell
port would yield if read, and the status `HGSMIBufferProcess` would return
for that offset. -/
structure DrainIter where
  pending : Bool
  doorbell : Nat
  rcDispatch : Int
  deriving DecidableEq, Repr

/-- `VBoxHGSMIProcessHostQueue` (HGSMIBase.c line 95): while the shared flags
word has `HGSMIHOSTFLAGS_COMMANDS_PENDING` set, try to take the reentrancy
guard (return at once if it is already held), process one host command, and
release the guard before re-checking the flags.  The environment list supplies
one `DrainIter` per flags-word read; an exhausted list means the pending bit
is observed clear.  The `Bool` is `pCtx->fHostCmdProcessing` threaded through;
the result pairs its final value with the event trace. -/
def VBoxHGSMIProcessHostQueue : List DrainIter → Bool → Bool × List HostEv
  | [], fHostCmdProcessing => (fHostCmdProcessing, [])
  | it :: rest, fHostCmdProcessing =>
    if it.pending then
      if fHostCmdProcessing then
        (fHostCmdProcessing, [HostEv.flagsCheck true, HostEv.casAttempt false])
      else
        let r := VBoxHGSMIProcessHostQueue rest false
        (r.1, HostEv.flagsCheck true :: HostEv.casAttempt true ::
              hgsmiHostCommandQueryProcess it.doorbell it.rcDispatch
                ++ HostEv.guardClear :: r.2)
    else (fHostCmdProcessing, [HostEv.flagsCheck false])

/-! ## Host-command completion from a pointer -/

/-- The host-area descriptor: local base address, byte length, and the offset
of the area within the device address space (`HGSMIAreaInitialize`). -/
structure HGSMIAREA where
  base : Nat
  length : Nat
  offBase : Nat
  deriving DecidableEq, Repr

/-- Modelled from the spec: the Area Mapper operation `toOffset`
(`HGSMIPointerToOffset`, which is not part of this repository's sources) —
pure address arithmetic that rejects any address outside `[base, base+length)`
by returning the `INVALID` sentinel, and otherwise returns the device-relative
offset of the address. -/
def HGSMIPointerToOffset (area : HGSMIAREA) (addr : Nat) : Nat :=
  if area.base ≤ addr ∧ addr < area.base + area.length then
    area.offBase + (addr - area.base)
  else HGSMIOFFSET_VOID

/-- `sizeof(HGSMIBUFFERHEADER)`: the fixed header prefixed to every payload. -/
def HGSMIBufferHeaderSize : Nat := 16

/-- Modelled from the spec: the fixed, deterministic payload-to-header address
relationship (`HGSMIBufferHeaderFromData`, not part of this repository's
sources): the header sits immediately before the payload. -/
def HGSMIBufferHeaderFromData (pvMem : Nat) : Nat := pvMem - HGSMIBufferHeaderSize

/-- `VBoxHGSMIHostCmdComplete` (HGSMIBase.c line 50): locate the header of the
command at `pvMem`, resolve it to an offset in the host area, and notify the
host iff the resolution did not yield `HGSMIOFFSET_VOID`.  The `Bool` is the
context's `fHostCmdProcessing` flag, threaded through untouched (the function
only reads the context). -/
def VBoxHGSMIHostCmdComplete (fHostCmdProcessing : Bool) (area : HGSMIAREA)
    (pvMem : Nat) : Bool × List HostEv :=
  let pHdr := HGSMIBufferHeaderFromData pvMem
  let offMem := HGSMIPointerToOffset area pHdr
  if offMem ≠ HGSMIOFFSET_VOID then (fHostCmdProcessing, HGSMINotifyHostCmdComplete offMem)
  else (fHostCmdProcessing, [])

/-! ## Guest-to-host side: submission and the setup helpers -/

/-- A guest-to-host doorbell submission: the single `uint32` port write, tagged
with the channel and command code stored in the submitted buffer's header. -/
inductive GuestEv where
  | submit (channel : Nat) (code : Nat) (off : Nat)
  deriving DecidableEq, Repr

/-- `VBoxHGSMIBufferSubmit` (HGSMIBase.c line 167): `offBuffer` is the offset
the heap resolved for the buffer pointer (`HGSMIHeapBufferOffset`, supplied by
the environment); if it is not `HGSMIOFFSET_VOID`, write it to the submission
doorbell port and succeed, otherwise fail with `VERR_INVALID_PARAMETER` and
write nothing.  `channel` and `code` are the header fields of the buffer being
submitted; they only tag the event. -/
def VBoxHGSMIBufferSubmit (channel code offBuffer : Nat) : Int × List GuestEv :=
  if offBuffer ≠ HGSMIOFFSET_VOID then
    (VINF_SUCCESS, [GuestEv.submit channel code offBuffer])
  else (VERR_INVALID_PARAMETER, [])

/-- Environment of one allocate/submit/free round-trip: whether
`VBoxHGSMIBufferAlloc` succeeds, and the offset `HGSMIHeapBufferOffset`
resolves for the allocated buffer. -/
structure GuestCall where
  allocOk : Bool
  offBuffer : Nat
  deriving DecidableEq, Repr

/-- `vboxHGSMIReportFlagsLocation` (HGSMIBase.c line 189): allocate a
`HGSMIBUFFERLOCATION` buffer on channel `HGSMI_CH_HGSMI` with code
`HGSMI_CC_HOST_FLAGS_LOCATION`, fill it, submit, free; `VERR_NO_MEMORY` if the
allocation fails. -/
def vboxHGSMIReportFlagsLocation (call : GuestCall) (offLocation : Nat) :
    Int × List GuestEv :=
  if call.allocOk then
    VBoxHGSMIBufferSubmit HGSMI_CH_HGSMI HGSMI_CC_HOST_FLAGS_LOCATION call.offBuffer
  else (VERR_NO_MEMORY, [])

/-- `vboxHGSMISendCapsInfo` (HGSMIBase.c line 234): allocate a `VBVACAPS`
buffer, pre-load its `rc` field with `VERR_NOT_IMPLEMENTED`, submit, and on
submission success return the `rc` field found in the buffer afterwards
(`hostRc = some x` models the host writing `x` into the field, `none` models a
host that never wrote it); `VERR_NO_MEMORY` if the allocation fails. -/
def vboxHGSMISendCapsInfo (call : GuestCall) (hostRc : Option Int) (fCaps : Nat) :
    Int × List GuestEv :=
  if call.allocOk then
    let s := VBoxHGSMIBufferSubmit HGSMI_CH_VBVA VBVA_INFO_CAPS call.offBuffer
    if 0 ≤ s.1 then (hostRc.getD VERR_NOT_IMPLEMENTED, s.2) else s
  else (VERR_NO_MEMORY, [])

/-- `vboxHGSMIReportHostArea` (HGSMIBase.c line 282): allocate a `VBVAINFOHEAP`
buffer, fill in the host-area offset and size, submit, free. -/
def vboxHGSMIReportHostArea (call : GuestCall) (u32AreaOffset u32AreaSize : Nat) :
    Int × List GuestEv :=
  if call.allocOk then
    VBoxHGSMIBufferSubmit HGSMI_CH_VBVA VBVA_INFO_HEAP call.offBuffer
  else (VERR_NO_MEMORY, [])

/-- `VBoxHGSMISendHostCtxInfo` (HGSMIBase.c line 903): report the flags
location first; if that succeeded and `fCaps` is non-zero, report the
capabilities; if everything so far succeeded, report the host heap area;
return the first failure's code. -/
def VBoxHGSMISendHostCtxInfo (callFlags callCaps callArea : GuestCall)
    (hostCapsRc : Option Int)
    (offVRAMFlagsLocation fCaps offVRAMHostArea cbHostArea : Nat) :
    Int × List GuestEv :=
  let r1 := vboxHGSMIReportFlagsLocation callFlags offVRAMFlagsLocation
  let r2 :=
    if 0 ≤ r1.1 ∧ fCaps ≠ 0 then
      let c := vboxHGSMISendCapsInfo callCaps hostCapsRc fCaps
      (c.1, r1.2 ++ c.2)
    else r1
  if 0 ≤ r2.1 then
    let a := vboxHGSMIReportHostArea callArea offVRAMHostArea cbHostArea
    (a.1, r2.2 ++ a.2)
  else r2

/-! ## Configuration queries and the one-time self-test -/

/-- Environment of one configuration query: allocation success, the offset the
heap resolves for the request buffer, and the value the guest finds in the
buffer's `u32Value` field after a successful submission, as a function of the
submitted index and the submitted (default) value — a host that does not
recognize the index leaves the default in place. -/
structure QueryCall where
  allocOk : Bool
  offBuffer : Nat
  hostValue : Nat → Nat → Nat

structure ConfBodyResult where
  rc : Int
  value : Option Nat
  evs : List GuestEv
  deriving DecidableEq, Repr

/-- The allocate/fill/submit/read-back/free body of `VBoxQueryConfHGSMIDef`
(HGSMIBase.c lines 971–992): allocate a `VBVACONF32` request, store the index
and the caller-supplied default in it, submit it, and on submission success
read the (possibly host-overwritten) `u32Value` field back; `value = none`
means the caller's output pointer was not written. -/
def vboxQueryConfBody (call : QueryCall) (u32Index u32DefValue : Nat) :
    ConfBodyResult :=
  if call.allocOk then
    let s := VBoxHGSMIBufferSubmit HGSMI_CH_VBVA VBVA_QUERY_CONF32 call.offBuffer
    if 0 ≤ s.1 then ⟨s.1, some (call.hostValue u32Index u32DefValue), s.2⟩
    else ⟨s.1, none, s.2⟩
  else ⟨VERR_NO_MEMORY, none, []⟩

structure TestConfResult where
  rc : Int
  once : Bool
  evs : List GuestEv
  deriving DecidableEq, Repr

/-- `testQueryConf` (HGSMIBase.c line 933): the one-time sanity test.  `cOnce`
is the function's `static bool`, threaded explicitly.  If the latch is set the
test is skipped; otherwise the latch is set and the reserved index
`UINT32_MAX` is queried with default `UINT32_MAX` (the inner
`VBoxQueryConfHGSMI` runs with the latch already set, so it reduces to the
query body; `ulValue` starts at 0 and is written only on success).  On a
passing response the latch stays set; otherwise the latch is reset to false
and the failure (or `VERR_INTERNAL_ERROR` on a value mismatch) is returned. -/
def testQueryConf (call : QueryCall) (cOnce : Bool) : TestConfResult :=
  if cOnce then ⟨VINF_SUCCESS, true, []⟩
  else
    let r := vboxQueryConfBody call UINT32_MAX UINT32_MAX
    let ulValue := r.value.getD 0
    if 0 ≤ r.rc ∧ ulValue = UINT32_MAX then ⟨VINF_SUCCESS, true, r.evs⟩
    else if r.rc < 0 then ⟨r.rc, false, r.evs⟩
    else ⟨VERR_INTERNAL_ERROR, false, r.evs⟩

structure QueryResult where
  rc : Int
  value : Option Nat
  once : Bool
  evs : List GuestEv
  deriving DecidableEq, Repr

/-- `VBoxQueryConfHGSMIDef` (HGSMIBase.c line 961): run the one-time self-test
first and propagate its failure; otherwise run the query body for the caller's
index and default.  `callTest` is the environment of the self-test's own query
and `call` that of the main query; `once` is the state of the self-test latch
after the call. -/
def VBoxQueryConfHGSMIDef (callTest call : QueryCall) (cOnce : Bool)
    (u32Index u32DefValue : Nat) : QueryResult :=
  let t := testQueryConf callTest cOnce
  if t.rc < 0 then ⟨t.rc, none, t.once, t.evs⟩
  else
    let r := vboxQueryConfBody call u32Index u32DefValue
    ⟨r.rc, r.value, t.once, t.evs ++ r.evs⟩

/-- `VBoxQueryConfHGSMI` (HGSMIBase.c line 995): query with default
`UINT32_MAX`. -/
def VBoxQueryConfHGSMI (callTest call : QueryCall) (cOnce : Bool)
    (u32Index : Nat) : QueryResult :=
  VBoxQueryConfHGSMIDef callTest call cOnce u32Index UINT32_MAX

/-- Faithfulness of the modelling of `testQueryConf`'s inner query: with the
latch already set, `VBoxQueryConfHGSMIDef` is exactly the query body, so
inlining `vboxQueryConfBody` for the recursive call inside `testQueryConf`
matches the source. -/
theorem VBoxQueryConfHGSMIDef_once_set (callTest call : QueryCall) (idx dv : Nat) :
    VBoxQueryConfHGSMIDef callTest call true idx dv =
      ⟨(vboxQueryConfBody call idx dv).rc, (vboxQueryConfBody call idx dv).value,
        true, (vboxQueryConfBody call idx dv).evs⟩ := by
  simp [VBoxQueryConfHGSMIDef, testQueryConf, VINF_SUCCESS]

/-! ## Mouse-pointer shape -/

/-- The pointer-data size computed by `VBoxHGSMIUpdatePointerShape`
(HGSMIBase.c line 1029) in `uint32_t` arithmetic:
`((((cWidth + 7) / 8) * cHeight + 3) & ~3) + cWidth * 4 * cHeight`,
i.e. the 4-byte-aligned AND-mask size plus the XOR-mask size. -/
def pointerDataSize (cWidth cHeight : Nat) : Nat :=
  let andMask := ((((cWidth + 7) % U32) / 8) * cHeight) % U32
  let aligned := ((andMask + 3) % U32) - ((andMask + 3) % U32) % 4
  let xorMask := (((cWidth * 4) % U32) * cHeight) % U32
  (aligned + xorMask) % U32

/-- The fields stored into the `VBVAMOUSEPOINTERSHAPE` buffer before
submission. -/
structure ShapeSubmission where
  fu32Flags : Nat
  u32HotX : Nat
  u32HotY : Nat
  u32Width : Nat
  u32Height : Nat
  cbData : Nat
  deriving DecidableEq, Repr

/-- `VBoxHGSMIUpdatePointerShape` (HGSMIBase.c line 1013): if the shape flag
is set, compute the pointer-data size from width and height and force the
visible flag on; reject with `VERR_INVALID_PARAMETER` (before allocating) when
the computed size exceeds `cbLength`; otherwise allocate, fill, submit, and on
submission success return the host-written `i32Result` (pre-loaded with
`VINF_SUCCESS`).  The third component records the buffer fields prepared for
submission (`none` when no buffer was allocated). -/
def VBoxHGSMIUpdatePointerShape (call : GuestCall) (hostResult : Option Int)
    (fFlags cHotX cHotY cWidth cHeight cbLength : Nat) :
    Int × List GuestEv × Option ShapeSubmission :=
  let cbData :=
    if fFlags &&& VBOX_MOUSE_POINTER_SHAPE ≠ 0 then pointerDataSize cWidth cHeight
    else 0
  let fFlagsAdj :=
    if fFlags &&& VBOX_MOUSE_POINTER_SHAPE ≠ 0 then fFlags ||| VBOX_MOUSE_POINTER_VISIBLE
    else fFlags
  if cbData > cbLength then (VERR_INVALID_PARAMETER, [], none)
  else if call.allocOk then
    let p : ShapeSubmission := ⟨fFlagsAdj, cHotX, cHotY, cWidth, cHeight, cbData⟩
    let s := VBoxHGSMIBufferSubmit HGSMI_CH_VBVA VBVA_MOUSE_POINTER_SHAPE call.offBuffer
    if 0 ≤ s.1 then (hostResult.getD VINF_SUCCESS, s.2, some p)
    else (s.1, s.2, some p)
  else (VERR_NO_MEMORY, [], none)

/-- Concrete self-test environment in which the host answers every query with
0 (a value mismatch for the sentinel index). -/
def confHostBad : QueryCall := ⟨true, 64, fun _ _ => 0⟩

/-- Concrete self-test environment in which the host leaves the submitted
default value in place for every query. -/
def confHostGood : QueryCall := ⟨true, 64, fun _ dv => dv⟩

/-! ## Claim theorems -/

/-- C1: for a dequeued offset dispatched by `hgsmiHostCmdProcess`, a failing
`HGSMIBufferProcess` result causes exactly one completion write of that same
offset, a successful result causes no completion write at all, and no other
offset is ever written. -/
theorem C1_dispatch_failure_completes_once (rcProcess : Int) (offBuffer : Nat) :
    (rcProcess < 0 →
      (hgsmiHostCmdProcess rcProcess offBuffer).count (HostEv.completeWrite offBuffer) = 1)
    ∧ (0 ≤ rcProcess →
      ∀ o : Nat, HostEv.completeWrite o ∉ hgsmiHostCmdProcess rcProcess offBuffer)
    ∧ (∀ o : Nat,
      HostEv.completeWrite o ∈ hgsmiHostCmdProcess rcProcess offBuffer → o = offBuffer) := by
  refine ⟨fun h => ?_, fun h o => ?_, fun o ho => ?_⟩
  · simp [hgsmiHostCmdProcess, HGSMINotifyHostCmdComplete, h]
  · have hn : ¬ rcProcess < 0 := not_lt.mpr h
    simp [hgsmiHostCmdProcess, HGSMINotifyHostCmdComplete, hn]
  · by_cases hrc : rcProcess < 0 <;>
      simp [hgsmiHostCmdProcess, HGSMINotifyHostCmdComplete, hrc] at ho <;>
      tauto

/-- C1 witness: with a failing dispatch status the offset 5 is completed
exactly once; with a succeeding status it is never completed. -/
theorem C1_dispatch_failure_completes_once_witness :
    (hgsmiHostCmdProcess (-1) 5).count (HostEv.completeWrite 5) = 1
    ∧ HostEv.completeWrite 5 ∉ hgsmiHostCmdProcess 0 5 :=
  ⟨(C1_dispatch_failure_completes_once (-1) 5).1 (by decide),
   (C1_dispatch_failure_completes_once 0 5).2.1 (by decide) 5⟩

/-- C2 counterexample: in a single invocation of the drain loop in which the
pending flag stays set, a doorbell read that yields `HGSMIOFFSET_VOID` does
not stop the pass — the invocation goes on to read the doorbell again and to
dispatch the offset obtained by that second read. -/
theorem C2_void_read_counterexample :
    ((VBoxHGSMIProcessHostQueue
        [⟨true, HGSMIOFFSET_VOID, 0⟩, ⟨true, 42, 0⟩] false).2.filter isDoorbellRead
      = [HostEv.doorbellRead HGSMIOFFSET_VOID, HostEv.doorbellRead 42])
    ∧ HostEv.dispatch 42 0
        ∈ (VBoxHGSMIProcessHostQueue
            [⟨true, HGSMIOFFSET_VOID, 0⟩, ⟨true, 42, 0⟩] false).2 := by
  constructor
  · rfl
  · decide

/-- C2 (amended): a doorbell read that yields `HGSMIOFFSET_VOID` causes no
dispatch for that read (`hgsmiHostCommandQueryProcess` returns after the
read), and it ends only the current loop iteration: the drain clears the
reentrancy guard and re-checks the pending flags, so the invocation returns
only once a flags check fails (or the guard compare-and-swap fails), and
further doorbell reads may occur in the same invocation. -/
theorem C2_void_read_continues_loop (it : DrainIter) (rest : List DrainIter)
    (hp : it.pending = true) (hv : it.doorbell = HGSMIOFFSET_VOID) :
    (∀ rcProcess : Int,
      hgsmiHostCommandQueryProcess HGSMIOFFSET_VOID rcProcess
        = [HostEv.doorbellRead HGSMIOFFSET_VOID])
    ∧ VBoxHGSMIProcessHostQueue (it :: rest) false
        = ((VBoxHGSMIProcessHostQueue rest false).1,
           HostEv.flagsCheck true :: HostEv.casAttempt true ::
             HostEv.doorbellRead HGSMIOFFSET_VOID :: HostEv.guardClear ::
               (VBoxHGSMIProcessHostQueue rest false).2) := by
  constructor
  · intro rc
    simp [hgsmiHostCommandQueryProcess]
  · simp [VBoxHGSMIProcessHostQueue, hp, hv, hgsmiHostCommandQueryProcess]

/-- C2 (amended) witness: a one-iteration environment with the pending flag
set and a VOID doorbell value. -/
theorem C2_void_read_continues_loop_witness :
    hgsmiHostCommandQueryProcess HGSMIOFFSET_VOID 7
      = [HostEv.doorbellRead HGSMIOFFSET_VOID]
    ∧ VBoxHGSMIProcessHostQueue [⟨true, HGSMIOFFSET_VOID, 7⟩] false
        = ((VBoxHGSMIProcessHostQueue [] false).1,
           HostEv.flagsCheck true :: HostEv.casAttempt true ::
             HostEv.doorbellRead HGSMIOFFSET_VOID :: HostEv.guardClear ::
               (VBoxHGSMIProcessHostQueue [] false).2) :=
  ⟨(C2_void_read_continues_loop ⟨true, HGSMIOFFSET_VOID, 7⟩ [] rfl rfl).1 7,
   (C2_void_read_continues_loop ⟨true, HGSMIOFFSET_VOID, 7⟩ [] rfl rfl).2⟩

/-- C3: `VBoxHGSMIBufferSubmit` writes exactly the heap-resolved offset to the
submission doorbell and returns `VINF_SUCCESS` when that offset is not the
INVALID sentinel; when it is the sentinel, the function returns
`VERR_INVALID_PARAMETER` and performs no doorbell write. -/
theorem C3_buffer_submit (channel code offBuffer : Nat) :
    (offBuffer ≠ HGSMIOFFSET_VOID →
      VBoxHGSMIBufferSubmit channel code offBuffer
        = (VINF_SUCCESS, [GuestEv.submit channel code offBuffer]))
    ∧ (offBuffer = HGSMIOFFSET_VOID →
      VBoxHGSMIBufferSubmit channel code offBuffer = (VERR_INVALID_PARAMETER, [])) := by
  constructor <;> intro h <;> simp [VBoxHGSMIBufferSubmit, h]

/-- C3 witness: a recognized offset 96 is written and succeeds; the sentinel
is rejected with no write. -/
theorem C3_buffer_submit_witness :
    VBoxHGSMIBufferSubmit 2 1 96 = (VINF_SUCCESS, [GuestEv.submit 2 1 96])
    ∧ VBoxHGSMIBufferSubmit 2 1 HGSMIOFFSET_VOID = (VERR_INVALID_PARAMETER, []) :=
  ⟨(C3_buffer_submit 2 1 96).1 (by decide),
   (C3_buffer_submit 2 1 HGSMIOFFSET_VOID).2 rfl⟩

/-- C5: if the reentrancy guard is already true, a drain invocation performs
no doorbell read and no dispatch and leaves the guard true; when the
compare-and-swap succeeds, the trace of the iteration is exactly one command's
processing bracketed by the successful swap and the guard-clearing write, and
the clearing write precedes the next pending-flags check; no flags check
happens inside the processing of the command itself. -/
theorem C5_reentrancy_guard (env : List DrainIter) (it : DrainIter)
    (rest : List DrainIter) (hp : it.pending = true) :
    ((VBoxHGSMIProcessHostQueue env true).1 = true
      ∧ (VBoxHGSMIProcessHostQueue env true).2.filter isDoorbellRead = []
      ∧ (VBoxHGSMIProcessHostQueue env true).2.filter isDispatch = [])
    ∧ VBoxHGSMIProcessHostQueue (it :: rest) false
        = ((VBoxHGSMIProcessHostQueue rest false).1,
           HostEv.flagsCheck true :: HostEv.casAttempt true ::
             hgsmiHostCommandQueryProcess it.doorbell it.rcDispatch
               ++ HostEv.guardClear :: (VBoxHGSMIProcessHostQueue rest false).2)
    ∧ (hgsmiHostCommandQueryProcess it.doorbell it.rcDispatch).filter isFlagsCheck
        = [] := by
  refine ⟨?_, ?_, ?_⟩
  · cases env with
    | nil => simp [VBoxHGSMIProcessHostQueue]
    | cons a l =>
      by_cases hpa : a.pending <;>
        simp [VBoxHGSMIProcessHostQueue, hpa, isDoorbellRead, isDispatch]
  · simp [VBoxHGSMIProcessHostQueue, hp]
  · by_cases hv : it.doorbell = HGSMIOFFSET_VOID <;>
      by_cases hrc : it.rcDispatch < 0 <;>
      simp [hgsmiHostCommandQueryProcess, hgsmiHostCmdProcess,
        HGSMINotifyHostCmdComplete, hv, hrc, isFlagsCheck]

/-- C5 witness: with the guard held, a pending one-command environment is not
processed at all; with the guard free, the same command is processed between
the swap and the clearing write. -/
theorem C5_reentrancy_guard_witness :
    ((VBoxHGSMIProcessHostQueue [⟨true, 3, -1⟩] true).1 = true
      ∧ (VBoxHGSMIProcessHostQueue [⟨true, 3, -1⟩] true).2.filter isDoorbellRead = []
      ∧ (VBoxHGSMIProcessHostQueue [⟨true, 3, -1⟩] true).2.filter isDispatch = [])
    ∧ VBoxHGSMIProcessHostQueue [⟨true, 3, -1⟩] false
        = ((VBoxHGSMIProcessHostQueue [] false).1,
           HostEv.flagsCheck true :: HostEv.casAttempt true ::
             hgsmiHostCommandQueryProcess 3 (-1)
               ++ HostEv.guardClear :: (VBoxHGSMIProcessHostQueue [] false).2) :=
  ⟨(C5_reentrancy_guard [⟨true, 3, -1⟩] ⟨true, 3, -1⟩ [] rfl).1,
   (C5_reentrancy_guard [⟨true, 3, -1⟩] ⟨true, 3, -1⟩ [] rfl).2.1⟩

/-- C4 counterexample: after a failed self-test (host answers the sentinel
query with 0) the latch is back at false and the failing query returns
`VERR_INTERNAL_ERROR`; the next query re-runs the self-test — it reaches the
host again (a `VBVA_QUERY_CONF32` submission happens on the "subsequent"
query even with the same misbehaving host), and with a host that now answers
correctly the subsequent query succeeds and returns a value.  This refutes
"all subsequent configuration queries fail without being sent to the host;
the self-test is never re-run and there is no retry path". -/
theorem C4_selftest_retry_counterexample :
    (VBoxQueryConfHGSMIDef confHostBad confHostBad false 5 0).once = false
    ∧ (VBoxQueryConfHGSMIDef confHostBad confHostBad false 5 0).rc = VERR_INTERNAL_ERROR
    ∧ (VBoxQueryConfHGSMIDef confHostBad confHostBad false 5 0).evs
        = [GuestEv.submit HGSMI_CH_VBVA VBVA_QUERY_CONF32 64]
    ∧ (VBoxQueryConfHGSMIDef confHostGood confHostGood false 5 9).rc = VINF_SUCCESS
    ∧ (VBoxQueryConfHGSMIDef confHostGood confHostGood false 5 9).value = some 9
    ∧ GuestEv.submit HGSMI_CH_VBVA VBVA_QUERY_CONF32 64
        ∈ (VBoxQueryConfHGSMIDef confHostGood confHostGood false 5 9).evs := by
  refine ⟨rfl, rfl, rfl, rfl, rfl, ?_⟩
  decide

/-- C4 (amended): a failed self-test fails only the query that ran it — the
query returns the self-test's error without issuing its own submission, and
the once-latch is reset to false, so the next configuration query re-runs the
self-test; once a self-test run passes, queries proceed normally again. -/
theorem C4_selftest_fails_current_query_and_retries
    (callFail callPass call : QueryCall) (idx dv : Nat)
    (hfail : (testQueryConf callFail false).rc < 0)
    (hpass : 0 ≤ (testQueryConf callPass false).rc) :
    (testQueryConf callFail false).once = false
    ∧ VBoxQueryConfHGSMIDef callFail call false idx dv
        = ⟨(testQueryConf callFail false).rc, none, false,
            (testQueryConf callFail false).evs⟩
    ∧ (VBoxQueryConfHGSMIDef callPass call false idx dv).rc
        = (vboxQueryConfBody call idx dv).rc
    ∧ (VBoxQueryConfHGSMIDef callPass call false idx dv).value
        = (vboxQueryConfBody call idx dv).value := by
  have honce : (testQueryConf callFail false).once = false := by
    unfold testQueryConf at hfail ⊢
    simp only [Bool.false_eq_true, if_false] at hfail ⊢
    by_cases h1 : 0 ≤ (vboxQueryConfBody callFail UINT32_MAX UINT32_MAX).rc
        ∧ (vboxQueryConfBody callFail UINT32_MAX UINT32_MAX).value.getD 0 = UINT32_MAX
    · rw [if_pos h1] at hfail
      simp [VINF_SUCCESS] at hfail
    · rw [if_neg h1] at hfail ⊢
      by_cases h2 : (vboxQueryConfBody callFail UINT32_MAX UINT32_MAX).rc < 0
      · rw [if_pos h2]
      · rw [if_neg h2]
  have hnpass : ¬ (testQueryConf callPass false).rc < 0 := not_lt.mpr hpass
  refine ⟨honce, ?_, ?_, ?_⟩
  · simp [VBoxQueryConfHGSMIDef, hfail, honce]
  · simp [VBoxQueryConfHGSMIDef, hnpass]
  · simp [VBoxQueryConfHGSMIDef, hnpass]

/-- C4 (amended) witness: the mismatching host fails the self-test and resets
the latch; the well-behaved host passes it and the query is answered. -/
theorem C4_selftest_fails_current_query_and_retries_witness :
    (testQueryConf confHostBad false).once = false
    ∧ VBoxQueryConfHGSMIDef confHostBad confHostGood false 5 9
        = ⟨(testQueryConf confHostBad false).rc, none, false,
            (testQueryConf confHostBad false).evs⟩
    ∧ (VBoxQueryConfHGSMIDef confHostGood confHostGood false 5 9).rc
        = (vboxQueryConfBody confHostGood 5 9).rc
    ∧ (VBoxQueryConfHGSMIDef confHostGood confHostGood false 5 9).value
        = (vboxQueryConfBody confHostGood 5 9).value :=
  C4_selftest_fails_current_query_and_retries confHostBad confHostGood confHostGood
    5 9 (by decide) (by decide)

/-- C6: `VBoxQueryConfHGSMIDef` submits the caller's default as the request's
value field (the read-back value is the host's function of the submitted index
and that default), and the read-back value is copied to the caller's output
exactly when the submission succeeds: with the self-test passing and the
allocation succeeding, a recognized buffer offset yields `VINF_SUCCESS` and
`some (hostValue idx dv)`, while a sentinel offset leaves the output
unwritten. -/
theorem C6_query_conf_default (callTest call : QueryCall) (cOnce : Bool)
    (idx dv : Nat)
    (hT : 0 ≤ (testQueryConf callTest cOnce).rc) (hA : call.allocOk = true) :
    (call.offBuffer ≠ HGSMIOFFSET_VOID →
      (VBoxQueryConfHGSMIDef callTest call cOnce idx dv).rc = VINF_SUCCESS
      ∧ (VBoxQueryConfHGSMIDef callTest call cOnce idx dv).value
          = some (call.hostValue idx dv))
    ∧ (call.offBuffer = HGSMIOFFSET_VOID →
      (VBoxQueryConfHGSMIDef callTest call cOnce idx dv).value = none) := by
  have hnt : ¬ (testQueryConf callTest cOnce).rc < 0 := not_lt.mpr hT
  constructor <;> intro h <;>
    simp [VBoxQueryConfHGSMIDef, hnt, vboxQueryConfBody, hA,
      VBoxHGSMIBufferSubmit, h, VINF_SUCCESS, VERR_INVALID_PARAMETER]

/-- C6 witness: the sentinel scenario — first-use query of index `0xFFFFFFFF`
with default `0xFFFFFFFF` against a host that leaves the default in place
succeeds and returns the default. -/
theorem C6_query_conf_default_witness :
    ((VBoxQueryConfHGSMIDef confHostGood confHostGood false UINT32_MAX UINT32_MAX).rc
        = VINF_SUCCESS
      ∧ (VBoxQueryConfHGSMIDef confHostGood confHostGood false UINT32_MAX UINT32_MAX).value
          = some (confHostGood.hostValue UINT32_MAX UINT32_MAX))
    ∧ confHostGood.hostValue UINT32_MAX UINT32_MAX = UINT32_MAX :=
  ⟨(C6_query_conf_default confHostGood confHostGood false UINT32_MAX UINT32_MAX
      (by decide) rfl).1 (by decide), rfl⟩

/-- C7: `vboxHGSMISendCapsInfo` pre-loads the buffer's result field with
`VERR_NOT_IMPLEMENTED` and, on submission success, returns whatever that field
holds afterwards — the host-written code when the host wrote one, and the
pre-loaded `VERR_NOT_IMPLEMENTED` when it did not; a failed allocation
returns `VERR_NO_MEMORY`. -/
theorem C7_caps_info_result (call : GuestCall) (hostRc : Option Int) (fCaps : Nat) :
    (call.allocOk = false →
      vboxHGSMISendCapsInfo call hostRc fCaps = (VERR_NO_MEMORY, []))
    ∧ (call.allocOk = true → call.offBuffer ≠ HGSMIOFFSET_VOID →
      vboxHGSMISendCapsInfo call hostRc fCaps
        = (hostRc.getD VERR_NOT_IMPLEMENTED,
           [GuestEv.submit HGSMI_CH_VBVA VBVA_INFO_CAPS call.offBuffer]))
    ∧ (hostRc = none → call.allocOk = true → call.offBuffer ≠ HGSMIOFFSET_VOID →
      (vboxHGSMISendCapsInfo call hostRc fCaps).1 = VERR_NOT_IMPLEMENTED) := by
  refine ⟨fun h => ?_, fun hA hOff => ?_, fun hN hA hOff => ?_⟩
  · simp [vboxHGSMISendCapsInfo, h]
  · simp [vboxHGSMISendCapsInfo, hA, VBoxHGSMIBufferSubmit, hOff, VINF_SUCCESS]
  · simp [vboxHGSMISendCapsInfo, hA, hN, VBoxHGSMIBufferSubmit, hOff, VINF_SUCCESS]

/-- C7 witness: a silent host yields the pre-loaded `VERR_NOT_IMPLEMENTED`, an
echoing host's code is propagated, and allocation failure yields
`VERR_NO_MEMORY`. -/
theorem C7_caps_info_result_witness :
    vboxHGSMISendCapsInfo ⟨true, 64⟩ none 3
      = (VERR_NOT_IMPLEMENTED, [GuestEv.submit HGSMI_CH_VBVA VBVA_INFO_CAPS 64])
    ∧ (vboxHGSMISendCapsInfo ⟨true, 64⟩ (some VINF_SUCCESS) 3).1 = VINF_SUCCESS
    ∧ vboxHGSMISendCapsInfo ⟨false, 64⟩ none 3 = (VERR_NO_MEMORY, []) :=
  ⟨by
      have h := (C7_caps_info_result ⟨true, 64⟩ none 3).2.1 rfl (by decide)
      simpa using h,
   by
      have h := (C7_caps_info_result ⟨true, 64⟩ (some VINF_SUCCESS) 3).2.1 rfl (by decide)
      simp [h],
   (C7_caps_info_result ⟨false, 64⟩ none 3).1 rfl⟩

/-- C8: `VBoxHGSMISendHostCtxInfo` issues the flags-location report first (its
events are the prefix of the trace), issues the capability report only when
the flags report succeeded (and `fCaps` is non-zero), issues the host-area
report only when every step issued before it succeeded, and returns the first
failure's code. -/
theorem C8_setup_sequence (callFlags callCaps callArea : GuestCall)
    (hostCapsRc : Option Int) (offFlagsLoc fCaps offArea cbArea : Nat) :
    (VBoxHGSMISendHostCtxInfo callFlags callCaps callArea hostCapsRc
        offFlagsLoc fCaps offArea cbArea).1
      = (if (vboxHGSMIReportFlagsLocation callFlags offFlagsLoc).1 < 0 then
          (vboxHGSMIReportFlagsLocation callFlags offFlagsLoc).1
        else if fCaps ≠ 0 ∧ (vboxHGSMISendCapsInfo callCaps hostCapsRc fCaps).1 < 0 then
          (vboxHGSMISendCapsInfo callCaps hostCapsRc fCaps).1
        else (vboxHGSMIReportHostArea callArea offArea cbArea).1)
    ∧ (VBoxHGSMISendHostCtxInfo callFlags callCaps callArea hostCapsRc
        offFlagsLoc fCaps offArea cbArea).2
      = (vboxHGSMIReportFlagsLocation callFlags offFlagsLoc).2
        ++ (if 0 ≤ (vboxHGSMIReportFlagsLocation callFlags offFlagsLoc).1 ∧ fCaps ≠ 0
            then (vboxHGSMISendCapsInfo callCaps hostCapsRc fCaps).2 else [])
        ++ (if 0 ≤ (vboxHGSMIReportFlagsLocation callFlags offFlagsLoc).1
              ∧ (fCaps = 0 ∨ 0 ≤ (vboxHGSMISendCapsInfo callCaps hostCapsRc fCaps).1)
            then (vboxHGSMIReportHostArea callArea offArea cbArea).2 else []) := by
  by_cases h1 : 0 ≤ (vboxHGSMIReportFlagsLocation callFlags offFlagsLoc).1 <;>
    by_cases h2 : fCaps = 0 <;>
    by_cases h3 : 0 ≤ (vboxHGSMISendCapsInfo callCaps hostCapsRc fCaps).1 <;>
    simp [VBoxHGSMISendHostCtxInfo, h1, h2, h3, not_le.mp, not_le, not_lt] <;>
    rw [if_neg (not_lt.mpr h1)] <;>
    rw [if_neg (not_lt.mpr h3)]

/-- C9: `VBoxHGSMIHostCmdComplete` writes a completion notification to the
host port exactly when the header located before the payload pointer lies
inside the host area (so that it resolves to a non-sentinel offset); any
written offset is the resolved one and is not the sentinel; and the context
state is left unchanged.  The bound says the area's device-relative offsets
stay below the sentinel, as the Area Mapper contract requires. -/
theorem C9_host_cmd_complete (fHostCmdProcessing : Bool) (area : HGSMIAREA)
    (pvMem : Nat)
    (hbound : area.offBase + area.length < HGSMIOFFSET_VOID) :
    ((VBoxHGSMIHostCmdComplete fHostCmdProcessing area pvMem).2 ≠ []
      ↔ (area.base ≤ HGSMIBufferHeaderFromData pvMem
          ∧ HGSMIBufferHeaderFromData pvMem < area.base + area.length))
    ∧ (VBoxHGSMIHostCmdComplete fHostCmdProcessing area pvMem).1 = fHostCmdProcessing
    ∧ (∀ o : Nat,
      HostEv.completeWrite o ∈ (VBoxHGSMIHostCmdComplete fHostCmdProcessing area pvMem).2 →
        o = HGSMIPointerToOffset area (HGSMIBufferHeaderFromData pvMem)
        ∧ o ≠ HGSMIOFFSET_VOID) := by
  by_cases hin : area.base ≤ HGSMIBufferHeaderFromData pvMem
      ∧ HGSMIBufferHeaderFromData pvMem < area.base + area.length
  · have hne : HGSMIPointerToOffset area (HGSMIBufferHeaderFromData pvMem)
        ≠ HGSMIOFFSET_VOID := by
      simp only [HGSMIPointerToOffset, if_pos hin]
      simp only [HGSMIOFFSET_VOID] at hbound ⊢
      omega
    refine ⟨?_, ?_, ?_⟩
    · simp [VBoxHGSMIHostCmdComplete, HGSMINotifyHostCmdComplete, hne, hin]
    · simp [VBoxHGSMIHostCmdComplete, HGSMINotifyHostCmdComplete, hne]
    · intro o ho
      simp [VBoxHGSMIHostCmdComplete, HGSMINotifyHostCmdComplete, hne] at ho
      exact ⟨ho, ho ▸ hne⟩
  · have hv : HGSMIPointerToOffset area (HGSMIBufferHeaderFromData pvMem)
        = HGSMIOFFSET_VOID := by
      simp [HGSMIPointerToOffset, hin]
    refine ⟨?_, ?_, ?_⟩
    · simp [VBoxHGSMIHostCmdComplete, hv, hin]
    · simp [VBoxHGSMIHostCmdComplete, hv]
    · intro o ho
      simp [VBoxHGSMIHostCmdComplete, hv] at ho

/-- C9 witness: a pointer whose header lies inside a small concrete host area
is completed with its resolved offset; state is untouched. -/
theorem C9_host_cmd_complete_witness :
    ((VBoxHGSMIHostCmdComplete false ⟨100, 50, 1000⟩ 116).2 ≠ []
      ↔ (100 ≤ HGSMIBufferHeaderFromData 116
          ∧ HGSMIBufferHeaderFromData 116 < 100 + 50))
    ∧ (VBoxHGSMIHostCmdComplete false ⟨100, 50, 1000⟩ 116).1 = false :=
  ⟨by
      have h := (C9_host_cmd_complete false ⟨100, 50, 1000⟩ 116 (by decide)).1
      simpa using h,
   (C9_host_cmd_complete false ⟨100, 50, 1000⟩ 116 (by decide)).2.1⟩

/-- Setting a bit with a bitwise-or makes the corresponding and-mask
non-zero. -/
theorem or_one_and_one_ne_zero (x : Nat) : (x ||| 1) &&& 1 ≠ 0 := by
  intro h
  have hb : Nat.testBit 1 0 = true := by decide
  have ht : ((x ||| 1) &&& 1).testBit 0 = true := by
    simp [Nat.testBit_and, Nat.testBit_or, hb]
  rw [h] at ht
  simp [Nat.zero_testBit] at ht

/-- C10: with the shape flag set, `VBoxHGSMIUpdatePointerShape` rejects with
`VERR_INVALID_PARAMETER` — allocating nothing and writing no doorbell —
whenever the pointer-data size computed from the width and the height exceeds
the supplied length, and in every buffer it prepares for submission the
visible flag has been forced on. -/
theorem C10_pointer_shape (call : GuestCall) (hostResult : Option Int)
    (fFlags cHotX cHotY cWidth cHeight cbLength : Nat)
    (hshape : fFlags &&& VBOX_MOUSE_POINTER_SHAPE ≠ 0) :
    (pointerDataSize cWidth cHeight > cbLength →
      VBoxHGSMIUpdatePointerShape call hostResult fFlags cHotX cHotY cWidth cHeight cbLength
        = (VERR_INVALID_PARAMETER, [], none))
    ∧ (∀ p : ShapeSubmission,
      (VBoxHGSMIUpdatePointerShape call hostResult fFlags cHotX cHotY cWidth
          cHeight cbLength).2.2 = some p →
        p.fu32Flags &&& VBOX_MOUSE_POINTER_VISIBLE ≠ 0) := by
  constructor
  · intro hgt
    simp [VBoxHGSMIUpdatePointerShape, hshape, hgt]
  · intro p hp
    simp only [VBoxHGSMIUpdatePointerShape, if_pos hshape] at hp
    split at hp
    · simp at hp
    · split at hp
      · split at hp
        · simp at hp
          subst hp
          simpa [VBOX_MOUSE_POINTER_VISIBLE] using or_one_and_one_ne_zero fFlags
        · simp at hp
          subst hp
          simpa [VBOX_MOUSE_POINTER_VISIBLE] using or_one_and_one_ne_zero fFlags
      · simp at hp

/-- C10 witness: a 1×1 shaped pointer needs 8 bytes, so length 7 is rejected
with no allocation and no doorbell write; with length 8 the prepared buffer
carries flags `4 ||| 1 = 5`, in which the visible bit is set. -/
theorem C10_pointer_shape_witness :
    pointerDataSize 1 1 > 7
    ∧ VBoxHGSMIUpdatePointerShape ⟨true, 64⟩ none 4 0 0 1 1 7
        = (VERR_INVALID_PARAMETER, [], none)
    ∧ (⟨5, 0, 0, 1, 1, 8⟩ : ShapeSubmission).fu32Flags &&& VBOX_MOUSE_POINTER_VISIBLE ≠ 0 :=
  ⟨by decide,
   (C10_pointer_shape ⟨true, 64⟩ none 4 0 0 1 1 7 (by decide)).1 (by decide),
   (C10_pointer_shape ⟨true, 64⟩ none 4 0 0 1 1 8 (by decide)).2
     ⟨5, 0, 0, 1, 1, 8⟩ (by decide)⟩

end HGSMI
